import Mathlib

/-!
Verification development for the OpenMemoryX cognitive memory engine
(src/api/app/services/memory_core/).

Shallow embedding conventions:
* Python floats are modelled as exact rationals (all score constants are
  decimal literals, so every multiplication in the scoring path is exact).
* Python `datetime` arithmetic is externalized: the integer day difference
  `(datetime.now() - datetime.fromisoformat(s)).days` is supplied as an
  oracle `age_days : String → Option ℤ` (with `none` modelling a parse
  failure, i.e. the `except` branch).
* The external Qdrant vector store is modelled by its observable behaviour:
  `client.search` replies are an input list of scored points, and the stored
  collection is a `Store` association list from point id to payload.
* AES-GCM is externalized as oracles: `enc : String → Option (String × String)`
  (ciphertext and nonce on success, `none` when `encrypt_content` raises) and
  `dec : String → String → Option String` (`none` models a base64 or AEAD
  authentication failure, the `except` branch of `_decrypt_memory_content`).
* Python truthiness on optional strings (`if not x`) is `truthyOS` /
  `truthyS`: `None` and the empty string are falsy.
-/

namespace OpenMemoryX

/-- Python truthiness of an optional string: `None` and `""` are falsy. -/
def truthyS (o : Option String) : Bool :=
  match o with
  | none => false
  | some s => !s.isEmpty

/-- classification.py `MemoryClassifier.SECTOR_DEFINITIONS` keys: the closed
five-sector set. -/
def SECTOR_DEFINITIONS : List String :=
  ["episodic", "semantic", "procedural", "emotional", "reflective"]

/-- The JSON object parsed from the LLM response in
`MemoryClassifier.classify`; every field may be absent (`classification.get`). -/
structure LLMClassification where
  primary_sector : Option String
  secondary_sectors : Option (List String)
  confidence : Option ℚ
  semantic_tags : Option (List String)
  generated_title : Option String
deriving DecidableEq

/-- The normalized classification dict returned by
`MemoryClassifier._normalize_classification` / `_fallback_classification`
(all keys present). -/
structure Classification where
  primary_sector : String
  secondary_sectors : List String
  confidence : ℚ
  semantic_tags : List String
  generated_title : Option String
deriving DecidableEq

/-- classification.py `MemoryClassifier._extract_basic_keywords`.
Python splits on arbitrary whitespace; modelled as a split on spaces. The
`list(set(...))` deduplication (unspecified order in Python) is modelled as
order-preserving `dedup`; only membership and the length bound matter. -/
def extract_basic_keywords (content : String) : List String :=
  let words := (content.toLower).splitOn " "
  let stop_words := ["the", "a", "an", "is", "are", "was", "were", "be", "been"]
  let keywords := words.filter (fun w => w.length > 4 && !stop_words.contains w)
  keywords.dedup.take 10

/-- classification.py `MemoryClassifier._normalize_classification`. -/
def normalize_classification (c : LLMClassification) (title : Option String)
    (content : String) : Classification :=
  let primary0 := c.primary_sector.getD "semantic"
  let primary := if SECTOR_DEFINITIONS.contains primary0 then primary0 else "semantic"
  let secondary0 := c.secondary_sectors.getD []
  let secondary :=
    (secondary0.filter (fun s => SECTOR_DEFINITIONS.contains s && s != primary)).take 2
  let confidence := max 0 (min 1 (c.confidence.getD 0.5))
  let tags0 := c.semantic_tags.getD []
  let tags := if tags0.isEmpty then extract_basic_keywords content else tags0
  let generated_title :=
    if !truthyS title && !truthyS c.generated_title then some (content.take 50)
    else c.generated_title
  { primary_sector := primary
    secondary_sectors := secondary
    confidence := confidence
    semantic_tags := tags.take 10
    generated_title := if truthyS generated_title then generated_title else title }

/-- Python substring test `w in s`, via `splitOn`: a non-empty `w` occurs in
`s` iff splitting on it yields more than one piece. -/
def containsSub (s w : String) : Bool :=
  (s.splitOn w).length > 1

/-- classification.py `MemoryClassifier._fallback_classification`
(keyword-based path used when the LLM call or JSON parse fails). -/
def fallback_classification (title : Option String) (content : String) :
    Classification :=
  let content_lower := content.toLower
  let primary :=
    if ["step", "how to", "guide", "deploy", "install"].any (containsSub content_lower) then
      "procedural"
    else if ["like", "love", "hate", "frustrated", "happy"].any (containsSub content_lower) then
      "emotional"
    else if ["yesterday", "meeting", "discussed", "we talked"].any (containsSub content_lower) then
      "episodic"
    else if ["should", "recommend", "lesson", "insight"].any (containsSub content_lower) then
      "reflective"
    else "semantic"
  { primary_sector := primary
    secondary_sectors := []
    confidence := 0.5
    semantic_tags := extract_basic_keywords content
    generated_title := if truthyS title then title else some (content.take 50) }

/-- The payload upserted to the `mem0` collection by `MemoryService.add`
(memory_service.py lines 360-404); every key `add` writes is a field.
`extra_metadata` is the opaque string-keyed mapping, values being optional
strings (`None` is a legal Python value, e.g. `superseded_by`). -/
structure Payload where
  title : String
  user_id : String
  content : String
  is_encrypted : Bool
  encrypted_content : Option String
  content_nonce : Option String
  project_id : String
  nspace : String
  memory_types : List String
  user_preference : Bool
  sector_primary : String
  sector_secondary : List String
  sector_confidence : ℚ
  semantic_tags : List String
  temporal_valid_from : String
  temporal_valid_until : Option String
  temporal_is_current : Bool
  created_at : String
  updated_at : Option String
  access_count : Nat
  last_accessed : Option String
  extra_metadata : List (String × Option String)
deriving DecidableEq

/-- memory_service.py `MemoryService._calculate_sector_boost`. The Python
guard `if not query_sectors` is falsy for both `None` and `[]`. -/
def calculate_sector_boost (payload : Payload)
    (query_sectors : Option (List String)) : ℚ :=
  match query_sectors with
  | none => 1.0
  | some qs =>
    if qs.isEmpty then 1.0
    else if qs.contains payload.sector_primary then 1.2
    else if qs.any (fun s => payload.sector_secondary.contains s) then 1.1
    else 0.8

/-- The day-bucket logic shared verbatim by
`MemoryService._calculate_time_boost` (memory_service.py 576-588) and
`CompositeScorer._calculate_time_boost` (scoring.py 118-140), as a function
of the computed integer age `days_old`. -/
def calculate_time_boost_days (days_old : ℤ) : ℚ :=
  if days_old < 7 then 1.2
  else if days_old < 30 then 1.1
  else if days_old > 365 then 0.8
  else 1.0

/-- `_calculate_time_boost(created_at)`: date parsing and the wall clock are
externalized in `age_days`; `none` models the `except` branch (parse
failure), which returns 1.0. -/
def calculate_time_boost (created_at : String)
    (age_days : String → Option ℤ) : ℚ :=
  match age_days created_at with
  | none => 1.0
  | some d => calculate_time_boost_days d

/-- scoring.py `CompositeScorer._calculate_access_boost`:
`min(1.0 + access_count * 0.02, 1.2)`. -/
def calculate_access_boost (access_count : Nat) : ℚ :=
  min (1.0 + access_count * 0.02) 1.2

/-- scoring.py `CompositeScorer.calculate_score` (lines 41-91): the four-factor
product. The breakdown rounding is presentational and not modelled; the
unrounded `final_score` is the value of interest. -/
def calculate_score (vector_similarity : ℚ) (payload : Payload)
    (query_sectors : Option (List String)) (access_count : Nat)
    (age_days : String → Option ℤ) : ℚ :=
  vector_similarity * calculate_sector_boost payload query_sectors *
    calculate_time_boost payload.created_at age_days *
    calculate_access_boost access_count

/-- Python truthiness of an optional string payload field (`if not x`):
absent (`None`) and empty are both falsy. -/
def truthyOS (o : Option String) : Bool :=
  match o with
  | none => false
  | some s => !s.isEmpty

/-- memory_service.py `MemoryService._decrypt_memory_content` (lines 270-314).
The DEK lookup (`_get_or_create_user_dek`, a database interaction) is the
oracle `dek`; `dec ct nonce` is the AES-GCM decryption oracle, `none`
modelling any exception (base64 error or AEAD authentication failure).
The function is total: no branch propagates an error to the caller. -/
def decrypt_memory_content (payload : Payload) (dek : Option Unit)
    (dec : String → String → Option String) : String :=
  if !payload.is_encrypted then
    payload.content
  else if !truthyOS payload.encrypted_content || !truthyOS payload.content_nonce then
    -- `if not encrypted_content_b64 or not nonce_b64: return payload.get("content", "")`
    payload.content
  else
    match dek with
    | none => "[Encrypted content - unable to decrypt]"
    | some _ =>
      match dec (payload.encrypted_content.getD "") (payload.content_nonce.getD "") with
      | some s => s
      | none => "[Encrypted content - decryption failed]"

/-- The dict returned by `MemoryService._encrypt_memory_content`
(memory_service.py lines 231-268). -/
structure EncryptionData where
  content : String
  is_encrypted : Bool
  encrypted_content : Option String
  content_nonce : Option String
deriving DecidableEq

/-- memory_service.py `MemoryService._encrypt_memory_content`. `dek` is the
`_get_or_create_user_dek` result (`none`: encryption disabled or DEK fetch
failed); `enc content` is the AES-GCM oracle returning base64 ciphertext and
nonce, `none` modelling the `except` branch (store plaintext). Note the
source keeps the original plaintext under the `content` key in every branch
(`"content": content,  # Keep original for embedding`). -/
def encrypt_memory_content (content : String) (dek : Option Unit)
    (enc : String → Option (String × String)) : EncryptionData :=
  match dek with
  | none =>
    { content := content, is_encrypted := false
      encrypted_content := none, content_nonce := none }
  | some _ =>
    match enc content with
    | some (ct, nonce) =>
      { content := content, is_encrypted := true
        encrypted_content := some ct, content_nonce := some nonce }
    | none =>
      { content := content, is_encrypted := false
        encrypted_content := none, content_nonce := none }

/-- The payload built by `MemoryService.add` (memory_service.py lines
356-404), step 4 onward. `now` stands for the `datetime.now().isoformat()`
reads made while building the payload (sub-microsecond differences between
the two reads are below the model's granularity). The embedding vector and
the upsert id are orthogonal to the payload shape and carried separately. -/
def add_payload (title : Option String) (content : String) (user_id : String)
    (project_id : Option String) (nspace : Option String)
    (memory_types : Option (List String)) (user_preference : Bool)
    (temporal_valid_until : Option String)
    (extra_metadata : Option (List (String × Option String)))
    (classification : Classification) (encryption_data : EncryptionData)
    (now : String) : Payload :=
  { title :=
      if truthyS title then title.getD ""
      else classification.generated_title.getD (content.take 50)
    user_id := user_id
    content := encryption_data.content
    is_encrypted := encryption_data.is_encrypted
    encrypted_content :=
      if encryption_data.is_encrypted then encryption_data.encrypted_content else none
    content_nonce :=
      if encryption_data.is_encrypted then encryption_data.content_nonce else none
    project_id := if truthyS project_id then project_id.getD "" else "default"
    nspace := if truthyS nspace then nspace.getD "" else "general"
    memory_types :=
      match memory_types with
      | some l => if l.isEmpty then ["general"] else l
      | none => ["general"]
    user_preference := user_preference
    sector_primary := classification.primary_sector
    sector_secondary := classification.secondary_sectors
    sector_confidence := classification.confidence
    semantic_tags := classification.semantic_tags
    temporal_valid_from := now
    temporal_valid_until := temporal_valid_until
    temporal_is_current := true
    created_at := now
    updated_at := none
    access_count := 0
    last_accessed := none
    extra_metadata := extra_metadata.getD [] }

/-- The stored collection, an association list from point id to payload
(observable state of the external `mem0` Qdrant collection). -/
abbrev Store : Type := List (String × Payload)

/-- Qdrant upsert semantics: replace the point with this id, or append it. -/
def upsert (store : Store) (id : String) (p : Payload) : Store :=
  if (List.lookup id store).isSome then
    store.map (fun e => if e.1 == id then (id, p) else e)
  else
    store ++ [(id, p)]

/-- `MemoryService.add` at the store level: build the payload and upsert it
under the freshly derived `memory_id` (an MD5 of user, title, content prefix
and the clock — opaque here). -/
def add_store (store : Store) (memory_id : String) (title : Option String)
    (content : String) (user_id : String) (project_id : Option String)
    (nspace : Option String) (memory_types : Option (List String))
    (user_preference : Bool) (temporal_valid_until : Option String)
    (extra_metadata : Option (List (String × Option String)))
    (classification : Classification) (encryption_data : EncryptionData)
    (now : String) : Store :=
  upsert store memory_id
    (add_payload title content user_id project_id nspace memory_types
      user_preference temporal_valid_until extra_metadata classification
      encryption_data now)

/-- One hit of the external ANN search (`client.search` reply): point id,
cosine similarity score, stored payload. The `user_id` / `project_id` /
`temporal_is_current` filters run inside Qdrant and are part of this input. -/
structure ScoredPoint where
  id : String
  score : ℚ
  payload : Payload
deriving DecidableEq

/-- A dynamically-typed JSON value, used for the small `temporal` dict that
`search` builds per result (it holds a bool and a string). -/
inductive JVal where
  | str (v : String)
  | bool (v : Bool)
deriving DecidableEq

/-- One entry of `search`'s `scored_results` (memory_service.py lines
509-528). The `temporal` sub-dict is kept as an association list because
`get_timeline` later probes it with `.get` for keys `search` may not have
written. -/
structure ResultItem where
  id : String
  title : String
  content : String
  score : ℚ
  project_id : String
  sector_primary : String
  sector_secondary : List String
  memory_types : List String
  semantic_tags : List String
  created_at : String
  temporal : List (String × JVal)
  is_encrypted : Bool
deriving DecidableEq

/-- The memory-type post-filter inside the `search` loop: skipped entirely
when the caller passed a falsy `memory_types`, otherwise an any-of test. -/
def memory_types_pass (payload : Payload)
    (memory_types : Option (List String)) : Bool :=
  match memory_types with
  | none => true
  | some mts =>
    if mts.isEmpty then true
    else mts.any (fun t => payload.memory_types.contains t)

/-- The result item `search` builds for one ANN hit: composite score
`point.score * sector_match * time_boost` and decrypted content.
Note the `temporal` dict carries only `is_current` and `valid_from`. -/
def search_item (sectors : Option (List String))
    (age_days : String → Option ℤ) (dek : Option Unit)
    (dec : String → String → Option String) (p : ScoredPoint) : ResultItem :=
  { id := p.id
    title := p.payload.title
    content := decrypt_memory_content p.payload dek dec
    score := p.score * calculate_sector_boost p.payload sectors *
      calculate_time_boost p.payload.created_at age_days
    project_id := p.payload.project_id
    sector_primary := p.payload.sector_primary
    sector_secondary := p.payload.sector_secondary
    memory_types := p.payload.memory_types
    semantic_tags := p.payload.semantic_tags
    created_at := p.payload.created_at
    temporal := [("is_current", JVal.bool p.payload.temporal_is_current),
                 ("valid_from", JVal.str p.payload.temporal_valid_from)]
    is_encrypted := p.payload.is_encrypted }

/-- Descending order on composite score, the key of
`scored_results.sort(key=lambda x: x["score"], reverse=True)`. -/
def score_ge (a b : ResultItem) : Prop := b.score ≤ a.score

instance : DecidableRel score_ge :=
  fun a b => inferInstanceAs (Decidable (b.score ≤ a.score))

instance : IsTotal ResultItem score_ge :=
  ⟨fun a b => le_total b.score a.score⟩

instance : IsTrans ResultItem score_ge :=
  ⟨fun _ _ _ h1 h2 => le_trans h2 h1⟩

/-- The candidate filter of the `search` loop: a hit is dropped when its
sector boost is exactly 0 (`if sector_match == 0: continue`) or when it
fails the memory-type filter. -/
def search_candidates (points : List ScoredPoint)
    (sectors : Option (List String)) (memory_types : Option (List String)) :
    List ScoredPoint :=
  points.filter (fun p =>
    if calculate_sector_boost p.payload sectors = 0 then false
    else memory_types_pass p.payload memory_types)

/-- `MemoryService.search` steps 4 onward (memory_service.py lines 484-558):
iterate the ANN hits in order, drop by the candidate filter, score and
decrypt the survivors, sort by score descending (stable), truncate to
`limit`. -/
def search_results (points : List ScoredPoint) (sectors : Option (List String))
    (memory_types : Option (List String)) (limit : Nat)
    (age_days : String → Option ℤ) (dek : Option Unit)
    (dec : String → String → Option String) : List ResultItem :=
  (((search_candidates points sectors memory_types).map
      (search_item sectors age_days dek dec)).insertionSort score_ge).take limit

/-- temporal_kg.py `TemporalKnowledgeGraph._mark_superseded` (lines 182-186).
The source body is `pass` under the comment "Implementation would update the
memory in Qdrant to set is_current=False and add superseded_by": no store
update is issued. -/
def mark_superseded (store : Store) (memory_id : String) : Store :=
  let _ := memory_id
  store

/-- The `extra_metadata` dict that `add_with_temporal` hands to `add`
(temporal_kg.py lines 72-77). -/
def tkg_extra_metadata (entity : String) (valid_from_iso : String)
    (supersedes : Option String) : List (String × Option String) :=
  [("temporal_entity", some entity),
   ("temporal_valid_from", some valid_from_iso),
   ("supersedes", supersedes),
   ("superseded_by", none)]

/-- The payload `add` builds on behalf of `add_with_temporal`
(temporal_kg.py lines 60-79 delegating to memory_service.py `add`): title and
content forwarded, `temporal_valid_until` from `valid_until`, the temporal
metadata packed into `extra_metadata`, every other `add` argument left at its
default. `valid_from_iso` is `(valid_from or datetime.now()).isoformat()`. -/
def add_with_temporal_payload (title : String) (content : String)
    (user_id : String) (entity : String) (valid_from_iso : String)
    (valid_until_iso : Option String) (supersedes : Option String)
    (classification : Classification) (encryption_data : EncryptionData)
    (now : String) : Payload :=
  add_payload (some title) content user_id none none none false
    valid_until_iso (some (tkg_extra_metadata entity valid_from_iso supersedes))
    classification encryption_data now

/-- temporal_kg.py `TemporalKnowledgeGraph.add_with_temporal` at the store
level: if `supersedes` is set, first `_mark_superseded` runs on the target,
then the new record is added. -/
def add_with_temporal_store (store : Store) (new_id : String) (title : String)
    (content : String) (user_id : String) (entity : String)
    (valid_from_iso : String) (valid_until_iso : Option String)
    (supersedes : Option String) (classification : Classification)
    (encryption_data : EncryptionData) (now : String) : Store :=
  let store1 :=
    match supersedes with
    | some sid => mark_superseded store sid
    | none => store
  upsert store1 new_id
    (add_with_temporal_payload title content user_id entity valid_from_iso
      valid_until_iso supersedes classification encryption_data now)

/-- Lookup in a `temporal` result dict (Python `.get`). -/
def jval_get (temporal : List (String × JVal)) (key : String) : Option JVal :=
  List.lookup key temporal

/-- Python truthiness of a `.get` result on the `temporal` dict. -/
def jval_truthy (o : Option JVal) : Bool :=
  match o with
  | some (JVal.str s) => !s.isEmpty
  | some (JVal.bool b) => b
  | none => false

/-- Extract a string value from a `.get` result. -/
def jval_str (o : Option JVal) : Option String :=
  match o with
  | some (JVal.str s) => some s
  | _ => none

/-- The sort key of `get_timeline`'s `sorted(..., key=lambda x:
x["temporal"]["valid_from"])`: ISO strings compared lexicographically. -/
def timeline_key (r : ResultItem) : String :=
  (jval_str (jval_get r.temporal "valid_from")).getD ""

/-- Ascending order on the timeline sort key. -/
def timeline_le (a b : ResultItem) : Prop := timeline_key a ≤ timeline_key b

instance : DecidableRel timeline_le :=
  fun a b => inferInstanceAs (Decidable (timeline_key a ≤ timeline_key b))

instance : IsTotal ResultItem timeline_le :=
  ⟨fun a b => le_total (timeline_key a) (timeline_key b)⟩

instance : IsTrans ResultItem timeline_le :=
  ⟨fun _ _ _ h1 h2 => le_trans h1 h2⟩

/-- One entry of the timeline view built by `get_timeline`
(temporal_kg.py lines 135-145). -/
structure TimelineEntry where
  memory_id : String
  title : String
  content : String
  period_from : String
  period_to : String
  is_current : Bool
  sector : String
deriving DecidableEq

/-- The period-resolution loop of `get_timeline` (temporal_kg.py lines
122-145): `valid_until := mem["temporal"].get("valid_until")`; a truthy value
ends the period, else the next entry's `valid_from`, else `"present"`. -/
def build_timeline_view : List ResultItem → List TimelineEntry
  | [] => []
  | mem :: rest =>
    let valid_from := (jval_str (jval_get mem.temporal "valid_from")).getD ""
    let valid_until := jval_get mem.temporal "valid_until"
    let period_end :=
      if jval_truthy valid_until then (jval_str valid_until).getD ""
      else
        match rest with
        | next :: _ => (jval_str (jval_get next.temporal "valid_from")).getD ""
        | [] => "present"
    { memory_id := mem.id
      title := mem.title
      content := mem.content.take 200 ++ "..."
      period_from := valid_from
      period_to := period_end
      is_current :=
        match jval_get mem.temporal "is_current" with
        | some (JVal.bool b) => b
        | _ => true
      sector := mem.sector_primary } :: build_timeline_view rest

/-- temporal_kg.py `TemporalKnowledgeGraph.get_timeline` (lines 83-147):
search with `only_current=False, limit=50` (the ANN reply for the entity
query is the `points` input), keep results whose `temporal.valid_from` is
truthy, sort ascending by it, and annotate periods. -/
def get_timeline (points : List ScoredPoint) (age_days : String → Option ℤ)
    (dek : Option Unit) (dec : String → String → Option String) :
    List TimelineEntry :=
  build_timeline_view
    (((search_results points none none 50 age_days dek dec).filter
        (fun r => jval_truthy (jval_get r.temporal "valid_from"))).insertionSort
      timeline_le)

/-- The record dict returned by `MemoryService.get_by_id`
(memory_service.py lines 689-708). -/
structure RetrievedMemory where
  id : String
  title : String
  content : String
  project_id : String
  sector_primary : String
  sector_secondary : List String
  sector_confidence : ℚ
  memory_types : List String
  semantic_tags : List String
  created_at : String
  temporal_is_current : Bool
  temporal_valid_from : String
  temporal_valid_until : Option String
  is_encrypted : Bool
  access_count : Nat
  extra_metadata : List (String × Option String)
deriving DecidableEq

/-- memory_service.py `MemoryService.get_by_id` (lines 654-711):
`client.retrieve` on the id, `None` when absent, `None` on ownership
mismatch (`payload.get("user_id") != user_id`), otherwise the decrypted
record. -/
def get_by_id (store : Store) (memory_id : String) (user_id : String)
    (dek : Option Unit) (dec : String → String → Option String) :
    Option RetrievedMemory :=
  match List.lookup memory_id store with
  | none => none
  | some payload =>
    if payload.user_id ≠ user_id then none
    else
      some
        { id := memory_id
          title := payload.title
          content := decrypt_memory_content payload dek dec
          project_id := payload.project_id
          sector_primary := payload.sector_primary
          sector_secondary := payload.sector_secondary
          sector_confidence := payload.sector_confidence
          memory_types := payload.memory_types
          semantic_tags := payload.semantic_tags
          created_at := payload.created_at
          temporal_is_current := payload.temporal_is_current
          temporal_valid_from := payload.temporal_valid_from
          temporal_valid_until := payload.temporal_valid_until
          is_encrypted := payload.is_encrypted
          access_count := payload.access_count
          extra_metadata := payload.extra_metadata }

/-- A concrete normalized classification for concrete evaluations. -/
def sampleClassification : Classification :=
  { primary_sector := "semantic"
    secondary_sectors := ["procedural"]
    confidence := 0.9
    semantic_tags := ["rust", "performance"]
    generated_title := some "Sample title" }

/-- A concrete legacy (unencrypted) payload for concrete evaluations. -/
def basePayload : Payload :=
  { title := "Base"
    user_id := "u1"
    content := "hello"
    is_encrypted := false
    encrypted_content := none
    content_nonce := none
    project_id := "default"
    nspace := "general"
    memory_types := ["general"]
    user_preference := false
    sector_primary := "semantic"
    sector_secondary := ["procedural"]
    sector_confidence := 0.5
    semantic_tags := []
    temporal_valid_from := "2026-01-01T00:00:00"
    temporal_valid_until := none
    temporal_is_current := true
    created_at := "2026-01-01T00:00:00"
    updated_at := none
    access_count := 0
    last_accessed := none
    extra_metadata := [] }

/-- A frequently-accessed payload: access_count 10. -/
def accessPayload : Payload := { basePayload with access_count := 10 }

/-- An is_encrypted record whose ciphertext and nonce fields are absent. -/
def missingCtPayload : Payload := { basePayload with is_encrypted := true }

/-- A fully-formed encrypted record. -/
def encPayload : Payload :=
  { basePayload with
      is_encrypted := true
      encrypted_content := some "Q1RfQjY0"
      content_nonce := some "Tk9OQ0U=" }

/-- A record carrying an explicit temporal_valid_until. -/
def vuPayload : Payload :=
  { basePayload with
      temporal_valid_from := "2023-01-01T00:00:00"
      temporal_valid_until := some "2024-06-01T00:00:00" }

/-- The content string of end-to-end scenario 1. -/
def rustContent : String := "We use Rust for the hot path."

/-- A concrete AES-GCM encryption oracle (always succeeds). -/
def sampleEnc : String → Option (String × String) :=
  fun s => some (s ++ "|ct", "nonce0")

/-- An age oracle: every record is 100 days old. -/
def age100 : String → Option ℤ := fun _ => some 100

/-- An age oracle: every record is 10 days old. -/
def age10 : String → Option ℤ := fun _ => some 10

/-- A concrete decryption oracle that always fails authentication. -/
def decFail : String → String → Option String := fun _ _ => none

/-- Encryption-disabled encryption data (dek unavailable). -/
def plainEncData (content : String) : EncryptionData :=
  encrypt_memory_content content none (fun _ => none)

/-- The stored payload of the first record of end-to-end scenario 4
(Vue 2, entity "stack"). -/
def vue2Payload : Payload :=
  add_with_temporal_payload "Vue 2" "We used Vue 2" "u1" "stack"
    "2023-01-01T00:00:00" none none sampleClassification
    (plainEncData "We used Vue 2") "2023-01-05T00:00:00"

/- ------------------------------------------------------------------ -/
/- Helper lemmas                                                       -/
/- ------------------------------------------------------------------ -/

/-- The sector boost only takes the values 1.0, 1.2, 1.1, 0.8; in particular
it is never 0, so the `if sector_match == 0: continue` branch of `search` is
unreachable. -/
theorem sector_boost_ne_zero (payload : Payload)
    (sectors : Option (List String)) :
    calculate_sector_boost payload sectors ≠ 0 := by
  unfold calculate_sector_boost
  rcases sectors with _ | qs <;> dsimp only
  · norm_num
  · split_ifs <;> norm_num

/- ------------------------------------------------------------------ -/
/- Claim theorems                                                      -/
/- ------------------------------------------------------------------ -/

/-- C7: the time multiplier is 1.2 for age under 7 days, 1.1 for at least 7
but under 30, 1.0 for at least 30 and at most 365, and 0.8 for over 365 days;
a record created now (age 0) gets 1.20 and one aged 366 days gets 0.80. -/
theorem C7_time_boost_buckets (d : ℤ) :
    (d < 7 → calculate_time_boost_days d = 1.2) ∧
    (7 ≤ d → d < 30 → calculate_time_boost_days d = 1.1) ∧
    (30 ≤ d → d ≤ 365 → calculate_time_boost_days d = 1.0) ∧
    (365 < d → calculate_time_boost_days d = 0.8) ∧
    calculate_time_boost_days 0 = 1.2 ∧
    calculate_time_boost_days 366 = 0.8 := by
  refine ⟨fun h => ?_, fun h1 h2 => ?_, fun h1 h2 => ?_, fun h => ?_, rfl, rfl⟩
  all_goals unfold calculate_time_boost_days
  · rw [if_pos h]
  · rw [if_neg (by omega), if_pos h2]
  · rw [if_neg (by omega), if_neg (by omega), if_neg (by omega)]
  · rw [if_neg (by omega), if_neg (by omega), if_pos h]

/-- Witness for C7 at concrete ages. -/
theorem C7_witness :
    calculate_time_boost_days 3 = 1.2 ∧ calculate_time_boost_days 10 = 1.1 ∧
    calculate_time_boost_days 100 = 1.0 ∧ calculate_time_boost_days 400 = 0.8 :=
  ⟨(C7_time_boost_buckets 3).1 (by decide),
   (C7_time_boost_buckets 10).2.1 (by decide) (by decide),
   (C7_time_boost_buckets 100).2.2.1 (by decide) (by decide),
   (C7_time_boost_buckets 400).2.2.2.1 (by decide)⟩

/-- C5: with a non-empty explicit sectors list the multiplier is 1.2 on a
primary match, 1.1 on a secondary match, 0.8 otherwise; the boost is never
0, so the mismatch `continue` in `search` drops no candidate (the candidate
filter reduces to the memory-type filter alone); with an absent or empty
sectors list the multiplier is 1.0 for every record. -/
theorem C5_sector_boost_never_excludes (payload : Payload) (qs : List String)
    (points : List ScoredPoint) (mt : Option (List String)) :
    calculate_sector_boost payload none = 1.0 ∧
    calculate_sector_boost payload (some []) = 1.0 ∧
    (qs ≠ [] → payload.sector_primary ∈ qs →
      calculate_sector_boost payload (some qs) = 1.2) ∧
    (qs ≠ [] → payload.sector_primary ∉ qs →
      (∃ s ∈ qs, s ∈ payload.sector_secondary) →
      calculate_sector_boost payload (some qs) = 1.1) ∧
    (qs ≠ [] → payload.sector_primary ∉ qs →
      (¬ ∃ s ∈ qs, s ∈ payload.sector_secondary) →
      calculate_sector_boost payload (some qs) = 0.8) ∧
    (∀ sectors, calculate_sector_boost payload sectors ≠ 0) ∧
    (∀ sectors, search_candidates points sectors mt
      = points.filter (fun p => memory_types_pass p.payload mt)) := by
  refine ⟨rfl, rfl, fun hne hmem => ?_, fun hne hmem hsec => ?_,
    fun hne hmem hsec => ?_, fun sectors => sector_boost_ne_zero payload sectors,
    fun sectors => List.filter_congr fun p _ => ?_⟩
  · unfold calculate_sector_boost
    dsimp only
    rw [if_neg (by simpa using hne), if_pos (List.elem_iff.mpr hmem)]
  · obtain ⟨s, hs1, hs2⟩ := hsec
    have hany : (qs.any fun s => payload.sector_secondary.contains s) = true :=
      List.any_eq_true.mpr ⟨s, hs1, List.elem_iff.mpr hs2⟩
    unfold calculate_sector_boost
    dsimp only
    rw [if_neg (by simpa using hne),
      if_neg (fun hc => hmem (List.elem_iff.mp hc)), if_pos hany]
  · have hany : ¬ (qs.any fun s => payload.sector_secondary.contains s) = true := by
      intro hany
      obtain ⟨s, hs1, hs2⟩ := List.any_eq_true.mp hany
      exact hsec ⟨s, hs1, List.elem_iff.mp hs2⟩
    unfold calculate_sector_boost
    dsimp only
    rw [if_neg (by simpa using hne),
      if_neg (fun hc => hmem (List.elem_iff.mp hc)), if_neg hany]
  · rw [if_neg (sector_boost_ne_zero p.payload sectors)]

/-- Witness for C5 on a concrete payload and sector lists. -/
theorem C5_witness :
    calculate_sector_boost basePayload (some ["semantic"]) = 1.2 ∧
    calculate_sector_boost basePayload (some ["procedural"]) = 1.1 ∧
    calculate_sector_boost basePayload (some ["episodic"]) = 0.8 := by
  have h1 := C5_sector_boost_never_excludes basePayload ["semantic"] [] none
  have h2 := C5_sector_boost_never_excludes basePayload ["procedural"] [] none
  have h3 := C5_sector_boost_never_excludes basePayload ["episodic"] [] none
  exact ⟨h1.2.2.1 (by decide) (by decide),
    h2.2.2.2.1 (by decide) (by decide) ⟨"procedural", by decide, by decide⟩,
    h3.2.2.2.2.1 (by decide) (by decide) (by decide)⟩

/-- C6: every classification result (normalized LLM path and keyword
fallback path) has a primary sector in the five-sector set (defaulting to
"semantic" when missing or invalid), secondary sectors drawn from the sector
set excluding the primary with at most 2 elements, confidence in the unit
interval (0.5 when missing), and at most 10 semantic tags. -/
theorem C6_classification_invariants (c : LLMClassification)
    (title : Option String) (content : String) :
    (normalize_classification c title content).primary_sector ∈ SECTOR_DEFINITIONS ∧
    (∀ s ∈ (normalize_classification c title content).secondary_sectors,
      s ∈ SECTOR_DEFINITIONS ∧ s ≠ (normalize_classification c title content).primary_sector) ∧
    (normalize_classification c title content).secondary_sectors.length ≤ 2 ∧
    0 ≤ (normalize_classification c title content).confidence ∧
    (normalize_classification c title content).confidence ≤ 1 ∧
    (c.confidence = none → (normalize_classification c title content).confidence = 0.5) ∧
    (normalize_classification c title content).semantic_tags.length ≤ 10 ∧
    (c.primary_sector = none →
      (normalize_classification c title content).primary_sector = "semantic") ∧
    (∀ s, s ∉ SECTOR_DEFINITIONS → c.primary_sector = some s →
      (normalize_classification c title content).primary_sector = "semantic") ∧
    (fallback_classification title content).primary_sector ∈ SECTOR_DEFINITIONS ∧
    (fallback_classification title content).secondary_sectors = [] ∧
    (fallback_classification title content).confidence = 0.5 ∧
    (fallback_classification title content).semantic_tags.length ≤ 10 := by
  refine ⟨?_, ?_, ?_, ?_, ?_, ?_, ?_, ?_, ?_, ?_, rfl, rfl, ?_⟩
  · unfold normalize_classification
    dsimp only
    split_ifs with h
    · exact List.elem_iff.mp h
    · decide
  · intro s hs
    unfold normalize_classification at hs ⊢
    dsimp only at hs ⊢
    have hs2 := List.mem_of_mem_take hs
    have hp := List.of_mem_filter hs2
    rw [Bool.and_eq_true] at hp
    refine ⟨List.elem_iff.mp hp.1, ?_⟩
    simpa using hp.2
  · unfold normalize_classification
    dsimp only
    exact List.length_take_le 2 _
  · unfold normalize_classification
    dsimp only
    exact le_max_left 0 _
  · unfold normalize_classification
    dsimp only
    exact max_le (by norm_num) (min_le_left 1 _)
  · intro h
    unfold normalize_classification
    dsimp only
    rw [h]
    norm_num
  · unfold normalize_classification
    dsimp only
    exact List.length_take_le 10 _
  · intro h
    unfold normalize_classification
    dsimp only
    rw [h]
    rfl
  · intro s hs h
    unfold normalize_classification
    dsimp only
    rw [h]
    have hcf : SECTOR_DEFINITIONS.contains s = false := by
      rw [← Bool.not_eq_true]
      exact fun hc => hs (List.elem_iff.mp hc)
    simp only [Option.getD_some]
    rw [hcf]
    rfl
  · unfold fallback_classification
    dsimp only
    split_ifs <;> decide
  · unfold fallback_classification extract_basic_keywords
    dsimp only
    exact List.length_take_le 10 _

/-- Witness for C6: the missing-field defaults at a concrete LLM reply. -/
theorem C6_witness :
    (normalize_classification
      { primary_sector := none, secondary_sectors := some ["procedural", "bogus"],
        confidence := none, semantic_tags := some ["a"], generated_title := none }
      none "install the agent").confidence = 0.5 ∧
    (normalize_classification
      { primary_sector := none, secondary_sectors := some ["procedural", "bogus"],
        confidence := none, semantic_tags := some ["a"], generated_title := none }
      none "install the agent").primary_sector = "semantic" ∧
    (normalize_classification
      { primary_sector := some "weird", secondary_sectors := none,
        confidence := some 2, semantic_tags := none, generated_title := none }
      none "x").primary_sector = "semantic" := by
  obtain ⟨-, -, -, -, -, h6, -, h8, -⟩ :=
    C6_classification_invariants
      { primary_sector := none, secondary_sectors := some ["procedural", "bogus"],
        confidence := none, semantic_tags := some ["a"], generated_title := none }
      none "install the agent"
  obtain ⟨-, -, -, -, -, -, -, -, h9, -⟩ :=
    C6_classification_invariants
      { primary_sector := some "weird", secondary_sectors := none,
        confidence := some 2, semantic_tags := none, generated_title := none }
      none "x"
  exact ⟨h6 rfl, h8 rfl, h9 "weird" (by decide) rfl⟩

/-- C9: `get_by_id` on a record owned by a different user returns None,
exactly as when the record is absent (there is no access-denied outcome),
while the owner receives the record with decrypted content. -/
theorem C9_get_by_id_ownership (store : Store) (memory_id : String)
    (u1 u2 : String) (payload : Payload) (dek : Option Unit)
    (dec : String → String → Option String)
    (hmem : List.lookup memory_id store = some payload)
    (howner : payload.user_id = u1) (hne : u2 ≠ u1) :
    get_by_id store memory_id u2 dek dec = none ∧
    (∀ s2 : Store, List.lookup memory_id s2 = none →
      get_by_id s2 memory_id u2 dek dec = none) ∧
    (∃ r, get_by_id store memory_id u1 dek dec = some r ∧
      r.id = memory_id ∧
      r.content = decrypt_memory_content payload dek dec ∧
      r.is_encrypted = payload.is_encrypted) := by
  refine ⟨?_, ?_, ?_⟩
  · unfold get_by_id
    rw [hmem]
    dsimp only
    rw [if_pos (fun h => hne (howner ▸ h.symm))]
  · intro s2 h2
    unfold get_by_id
    rw [h2]
  · have hsome : get_by_id store memory_id u1 dek dec =
        some
          { id := memory_id
            title := payload.title
            content := decrypt_memory_content payload dek dec
            project_id := payload.project_id
            sector_primary := payload.sector_primary
            sector_secondary := payload.sector_secondary
            sector_confidence := payload.sector_confidence
            memory_types := payload.memory_types
            semantic_tags := payload.semantic_tags
            created_at := payload.created_at
            temporal_is_current := payload.temporal_is_current
            temporal_valid_from := payload.temporal_valid_from
            temporal_valid_until := payload.temporal_valid_until
            is_encrypted := payload.is_encrypted
            access_count := payload.access_count
            extra_metadata := payload.extra_metadata } := by
      unfold get_by_id
      rw [hmem]
      dsimp only
      rw [if_neg (fun h => h howner)]
    exact ⟨_, hsome, rfl, rfl, rfl⟩

/-- Witness for C9 on a concrete one-record store. -/
theorem C9_witness :
    get_by_id [("m1", basePayload)] "m1" "u2" none decFail = none ∧
    (∃ r, get_by_id [("m1", basePayload)] "m1" "u1" none decFail = some r ∧
      r.id = "m1" ∧
      r.content = decrypt_memory_content basePayload none decFail ∧
      r.is_encrypted = basePayload.is_encrypted) := by
  have h := C9_get_by_id_ownership [("m1", basePayload)] "m1" "u1" "u2"
    basePayload none decFail rfl rfl (by decide)
  exact ⟨h.1, h.2.2⟩

/-- C10: every payload written by `add` has temporal_is_current = true,
access_count = 0, and temporal_valid_from equal to the creation instant; the
valid_from argument of `add_with_temporal` lands only inside extra_metadata,
while the top-level temporal_valid_from that search and get_timeline read
stays the creation instant. -/
theorem C10_add_payload_temporal_defaults (title : Option String)
    (content user_id : String) (project_id nspace : Option String)
    (memory_types : Option (List String)) (user_preference : Bool)
    (vu : Option String) (em : Option (List (String × Option String)))
    (cl : Classification) (enc : EncryptionData) (now : String)
    (t c uid entity vf : String) (vu2 sup : Option String) :
    (add_payload title content user_id project_id nspace memory_types
      user_preference vu em cl enc now).temporal_is_current = true ∧
    (add_payload title content user_id project_id nspace memory_types
      user_preference vu em cl enc now).access_count = 0 ∧
    (add_payload title content user_id project_id nspace memory_types
      user_preference vu em cl enc now).temporal_valid_from = now ∧
    (add_payload title content user_id project_id nspace memory_types
      user_preference vu em cl enc now).created_at = now ∧
    (add_with_temporal_payload t c uid entity vf vu2 sup cl enc
      now).temporal_valid_from = now ∧
    List.lookup "temporal_valid_from"
      (add_with_temporal_payload t c uid entity vf vu2 sup cl enc
        now).extra_metadata = some (some vf) :=
  ⟨rfl, rfl, rfl, rfl, rfl, rfl⟩

/-- Executable form of `search_results` on a single ANN hit that passes the
memory-type filter. -/
theorem search_results_singleton (pt : ScoredPoint)
    (sectors mt : Option (List String)) (limit : Nat)
    (age : String → Option ℤ) (dek : Option Unit)
    (dec : String → String → Option String)
    (hmt : memory_types_pass pt.payload mt = true) (hl : 1 ≤ limit) :
    search_results [pt] sectors mt limit age dek dec =
      [search_item sectors age dek dec pt] := by
  obtain ⟨m, rfl⟩ : ∃ m, limit = m + 1 := ⟨limit - 1, by omega⟩
  unfold search_results search_candidates
  have hcond : (fun p => if calculate_sector_boost p.payload sectors = 0 then
      false else memory_types_pass p.payload mt) pt = true := by
    dsimp only
    rw [if_neg (sector_boost_ne_zero pt.payload sectors)]
    exact hmt
  rw [List.filter_cons, if_pos hcond]
  show List.take (m + 1) [search_item sectors age dek dec pt] =
    [search_item sectors age dek dec pt]
  rw [List.take_succ_cons, List.take_nil]

/-- C2 amended: each returned result's final_score equals
vector_similarity · sector_boost · time_boost exactly (the access-frequency
boost is not applied on the search path), and the returned results are
sorted by final_score in descending order. -/
theorem C2_search_scores_and_order (points : List ScoredPoint)
    (sectors mt : Option (List String)) (limit : Nat)
    (age_days : String → Option ℤ) (dek : Option Unit)
    (dec : String → String → Option String) :
    List.Sorted score_ge (search_results points sectors mt limit age_days dek dec) ∧
    ∀ r ∈ search_results points sectors mt limit age_days dek dec,
      ∃ p ∈ points, r = search_item sectors age_days dek dec p ∧
        r.score = p.score * calculate_sector_boost p.payload sectors *
          calculate_time_boost p.payload.created_at age_days := by
  constructor
  · unfold search_results
    exact List.Pairwise.sublist (List.take_sublist _ _)
      (List.sorted_insertionSort score_ge _)
  · intro r hr
    unfold search_results at hr
    have hr2 := List.mem_of_mem_take hr
    rw [List.mem_insertionSort] at hr2
    obtain ⟨p, hp, rfl⟩ := List.mem_map.mp hr2
    unfold search_candidates at hp
    exact ⟨p, List.mem_of_mem_filter hp, rfl, rfl⟩

/-- C2 counterexample: a record with access_count 10 (access boost 1.2) and
age 100 days; search returns final_score 0.5 · 1.0 · 1.0 = 0.5, which is not
within 1e-6 of the four-factor product 0.5 · 1.0 · 1.0 · 1.2 = 0.6. -/
theorem C2_counterexample :
    (search_results [ScoredPoint.mk "p1" 0.5 accessPayload] none none 10
      age100 none decFail).map ResultItem.score = [0.5] ∧
    ¬ |(0.5 : ℚ) -
        0.5 * calculate_sector_boost accessPayload none *
          calculate_time_boost accessPayload.created_at age100 *
          calculate_access_boost accessPayload.access_count| ≤ 1 / 1000000 := by
  constructor
  · rw [search_results_singleton (ScoredPoint.mk "p1" 0.5 accessPayload)
      none none 10 age100 none decFail rfl (by decide)]
    show [(0.5 : ℚ) * calculate_sector_boost accessPayload none *
      calculate_time_boost accessPayload.created_at age100] = [0.5]
    norm_num [calculate_sector_boost, calculate_time_boost, age100,
      calculate_time_boost_days]
  · norm_num [calculate_sector_boost, calculate_time_boost, age100,
      calculate_time_boost_days, calculate_access_boost, accessPayload,
      basePayload, min_def, abs]

/-- Witness for C2 on a concrete one-hit search. -/
theorem C2_witness :
    ∃ p ∈ [ScoredPoint.mk "p1" 0.5 accessPayload],
      search_item none age100 none decFail (ScoredPoint.mk "p1" 0.5 accessPayload) =
        search_item none age100 none decFail p ∧
      (search_item none age100 none decFail
          (ScoredPoint.mk "p1" 0.5 accessPayload)).score =
        p.score * calculate_sector_boost p.payload none *
          calculate_time_boost p.payload.created_at age100 := by
  have h := (C2_search_scores_and_order [ScoredPoint.mk "p1" 0.5 accessPayload]
    none none 10 age100 none decFail).2
  refine h _ ?_
  rw [search_results_singleton (ScoredPoint.mk "p1" 0.5 accessPayload)
    none none 10 age100 none decFail rfl (by decide)]
  exact List.mem_singleton_self _

/-- C4 amended: reads of is_encrypted=false records return the stored
plaintext; when is_encrypted=true but the ciphertext or nonce field is
missing or empty the stored content field is returned (not a sentinel); the
sentinel "[Encrypted content - unable to decrypt]" is returned only when
ciphertext and nonce are present but the user's DEK is unavailable; a
decryption (AEAD/base64) failure yields the sentinel
"[Encrypted content - decryption failed]"; the function is total, so content
decryption never fails the whole request. -/
theorem C4_decrypt_content_cases (payload : Payload) (dek : Option Unit)
    (dec : String → String → Option String) :
    (payload.is_encrypted = false →
      decrypt_memory_content payload dek dec = payload.content) ∧
    (payload.is_encrypted = true →
      (truthyOS payload.encrypted_content = false ∨
        truthyOS payload.content_nonce = false) →
      decrypt_memory_content payload dek dec = payload.content) ∧
    (payload.is_encrypted = true → truthyOS payload.encrypted_content = true →
      truthyOS payload.content_nonce = true → dek = none →
      decrypt_memory_content payload dek dec =
        "[Encrypted content - unable to decrypt]") ∧
    (∀ u s, payload.is_encrypted = true →
      truthyOS payload.encrypted_content = true →
      truthyOS payload.content_nonce = true → dek = some u →
      dec (payload.encrypted_content.getD "") (payload.content_nonce.getD "") =
        some s →
      decrypt_memory_content payload dek dec = s) ∧
    (∀ u, payload.is_encrypted = true →
      truthyOS payload.encrypted_content = true →
      truthyOS payload.content_nonce = true → dek = some u →
      dec (payload.encrypted_content.getD "") (payload.content_nonce.getD "") =
        none →
      decrypt_memory_content payload dek dec =
        "[Encrypted content - decryption failed]") := by
  refine ⟨fun h => ?_, fun h1 h2 => ?_, fun h1 h2 h3 h4 => ?_,
    fun u s h1 h2 h3 h4 h5 => ?_, fun u h1 h2 h3 h4 h5 => ?_⟩
  · simp [decrypt_memory_content, h]
  · rcases h2 with h2 | h2 <;> simp [decrypt_memory_content, h1, h2]
  · simp [decrypt_memory_content, h1, h2, h3, h4]
  · simp [decrypt_memory_content, h1, h2, h3, h4, h5]
  · simp [decrypt_memory_content, h1, h2, h3, h4, h5]

/-- C4 counterexample: an is_encrypted record with no ciphertext/nonce
fields; the claim says the sentinel is returned, but the source returns
`payload.get("content", "")`, here "hello". -/
theorem C4_counterexample :
    missingCtPayload.is_encrypted = true ∧
    missingCtPayload.encrypted_content = none ∧
    decrypt_memory_content missingCtPayload none decFail = "hello" ∧
    "hello" ≠ "[Encrypted content - unable to decrypt]" := by
  exact ⟨rfl, rfl, rfl, by decide⟩

/-- Witness for C4 at concrete payloads: DEK unavailable, AEAD failure, and
the legacy plaintext path. -/
theorem C4_witness :
    decrypt_memory_content encPayload none decFail =
      "[Encrypted content - unable to decrypt]" ∧
    decrypt_memory_content encPayload (some ()) decFail =
      "[Encrypted content - decryption failed]" ∧
    decrypt_memory_content basePayload none decFail = basePayload.content := by
  have h1 := C4_decrypt_content_cases encPayload none decFail
  have h2 := C4_decrypt_content_cases encPayload (some ()) decFail
  have h3 := C4_decrypt_content_cases basePayload none decFail
  exact ⟨h1.2.2.1 rfl rfl rfl rfl,
    h2.2.2.2.2 () rfl rfl rfl rfl rfl,
    h3.1 rfl⟩

/-- C1: the claim says content_plaintext is never persisted when encryption
is on; but `_encrypt_memory_content` returns the original plaintext under
the `content` key in every branch and `add` writes it into the upserted
payload, so a stored encrypted record does have a payload field equal to the
original content string. -/
theorem C1_plaintext_persisted (content : String) (dek : Option Unit)
    (enc : String → Option (String × String)) (title : Option String)
    (user_id : String) (pid ns : Option String) (mt : Option (List String))
    (up : Bool) (vu : Option String)
    (em : Option (List (String × Option String))) (cl : Classification)
    (now : String) :
    (add_payload title content user_id pid ns mt up vu em cl
      (encrypt_memory_content content dek enc) now).content = content ∧
    (add_payload (some "Rust note") rustContent "u1" none none none false none
      none sampleClassification
      (encrypt_memory_content rustContent (some ()) sampleEnc)
      "2026-02-01T00:00:00").is_encrypted = true ∧
    (add_payload (some "Rust note") rustContent "u1" none none none false none
      none sampleClassification
      (encrypt_memory_content rustContent (some ()) sampleEnc)
      "2026-02-01T00:00:00").content = rustContent := by
  refine ⟨?_, rfl, rfl⟩
  show (encrypt_memory_content content dek enc).content = content
  unfold encrypt_memory_content
  rcases dek with _ | u
  · rfl
  · rcases hec : enc content with _ | ⟨ct, nonce⟩ <;> simp [hec]

/-- C3: the claim says the supersedes target ends with
temporal_is_current=false and superseded_by=new_id; but `_mark_superseded`
is a no-op stub, so after `add_with_temporal` the superseded record is
byte-for-byte unchanged: still current and with no superseded_by link. -/
theorem C3_supersession_stub :
    (∀ (store : Store) (sid : String), mark_superseded store sid = store) ∧
    List.lookup "m1"
      (add_with_temporal_store [("m1", vue2Payload)] "m2" "Vue 3"
        "We now use Vue 3" "u1" "stack" "2024-06-01T00:00:00" none (some "m1")
        sampleClassification (plainEncData "We now use Vue 3")
        "2024-06-02T00:00:00") = some vue2Payload ∧
    vue2Payload.temporal_is_current = true ∧
    List.lookup "superseded_by" vue2Payload.extra_metadata = some none := by
  exact ⟨fun _ _ => rfl, rfl, rfl, rfl⟩

/-- C8: the claim says get_timeline resolves period.to from the record's
explicit valid_until when present; but `search` never writes a valid_until
key into the `temporal` dict of its result items, so the branch reading it
is dead: a sole record with an explicit valid_until still gets
period.to = "present". -/
theorem C8_timeline_ignores_valid_until :
    (∀ (sectors : Option (List String)) (age : String → Option ℤ)
        (dek : Option Unit) (dec : String → String → Option String)
        (p : ScoredPoint),
      jval_get (search_item sectors age dek dec p).temporal "valid_until" =
        none) ∧
    vuPayload.temporal_valid_until = some "2024-06-01T00:00:00" ∧
    (get_timeline [ScoredPoint.mk "p1" 0.9 vuPayload] age10 none decFail).map
      TimelineEntry.period_to = ["present"] := by
  refine ⟨fun _ _ _ _ _ => rfl, rfl, ?_⟩
  unfold get_timeline
  rw [search_results_singleton (ScoredPoint.mk "p1" 0.9 vuPayload)
    none none 50 age10 none decFail rfl (by decide)]
  rfl

end OpenMemoryX
